import Mathlib

/-!
# Verification of the tr7 website-monitor bot (src/b.py)

A shallow embedding of the monitoring engine of `src/b.py`:

* `extract_files`   — HTML link extraction with an extension allow-list;
* `downloadFile`    — `download_file`, the capped file fetcher;
* `checkSingleWebsite` — `check_single_website`, one poll cycle;
* `trackCore` / `trackCmd` — the `/track` command's state updates and
  APScheduler job registration (`add_job` with `replace_existing=True`);
* a faithful MD5 implementation (the job-id digest `hashlib.md5(url).hexdigest()[:6]`).

External effects (HTTP, the Telegram client, BeautifulSoup parsing, the
SHA-256 page digest, `urljoin`) enter as explicit oracle parameters; pure
library helpers used by the source (`str.lower`, `str.endswith`,
`os.path.basename`, `os.path.splitext`, `urlparse(...).path`, `re.sub` on a
fixed character class, `int(...)`) are implemented directly on character
lists, restricted to the ASCII strings the claims range over (Python's
Unicode case folding and underscore digit grouping are not modelled).
-/

namespace Tr7

/-! ## Python string primitives -/

/-- `str.lower()` restricted to ASCII (URLs and extensions in scope are ASCII). -/
def toLowerPy (s : String) : String := String.mk (s.data.map Char.toLower)

/-- `str.endswith(suffix)`. -/
def endsWithPy (s suf : String) : Bool :=
  decide (s.data.drop (s.data.length - suf.data.length) = suf.data)

/-- `os.path.basename(s)`: everything after the last `/`. -/
def pybasename (s : String) : String :=
  String.mk (s.data.foldl (fun acc c => if c = '/' then [] else acc ++ [c]) [])

/-- Index of the last occurrence of `c`, if any. -/
def rfindIdx (c : Char) (l : List Char) : Option Nat :=
  (l.foldl (fun (acc : Option Nat × Nat) ch =>
    (if ch = c then some acc.2 else acc.1, acc.2 + 1)) (none, 0)).1

/-- `os.path.splitext(p)[1]` (POSIX): the extension starting at the last dot
that lies after the last `/` and is preceded (within the basename) by at
least one non-dot character; `""` otherwise. -/
def splitextExt (p : String) : String :=
  let l := p.data
  match rfindIdx '.' l with
  | none => ""
  | some d =>
    let sepEnd : Nat :=
      match rfindIdx '/' l with
      | none => 0
      | some s2 => s2 + 1
    if sepEnd ≤ d && ((l.drop sepEnd).take (d - sepEnd)).any (fun c => c ≠ '.') then
      String.mk (l.drop d)
    else ""

/-- Valid scheme part before a `:` (first char alphabetic, rest
alphanumeric or `+`/`-`/`.`), as in `urllib.parse`. -/
def isSchemeChars : List Char → Bool
  | [] => false
  | c :: rest => c.isAlpha && rest.all (fun d => d.isAlphanum || d = '+' || d = '-' || d = '.')

/-- `urllib.parse.urlparse(u).path`: strip a valid scheme, strip a
`//netloc` up to the next `/`, `?` or `#`, then cut at `#` and at `?`. -/
def urlparsePath (u : String) : String :=
  let l := u.data
  let l :=
    match l.findIdx? (fun x => x == ':') with
    | some i => if 0 < i && isSchemeChars (l.take i) then l.drop (i + 1) else l
    | none => l
  let l :=
    match l with
    | '/' :: '/' :: rest => rest.drop (rest.findIdx (fun x => x == '/' || x == '?' || x == '#'))
    | _ => l
  String.mk ((l.takeWhile (fun x => x ≠ '#')).takeWhile (fun x => x ≠ '?'))

/-- `re.sub(r'[\\/*?:"<>|]', '', s)`. -/
def stripBad (s : String) : String :=
  String.mk (s.data.filter (fun c => !(c ∈ ['\\', '/', '*', '?', ':', '"', '<', '>', '|'])))

/-- Is `p` a contiguous run at the front of `l`? -/
def startsWithL (p l : List Char) : Bool := decide (l.take p.length = p)

/-- Python's `pat in s` on strings (substring containment), on char lists. -/
def containsSubAux (p : List Char) : List Char → Bool
  | [] => decide (p = [])
  | c :: rest => startsWithL p (c :: rest) || containsSubAux p rest

/-- Python's `pat in s` on strings. -/
def containsSub (pat s : String) : Bool := containsSubAux pat.data s.data

/-- All-decimal-digit parse. -/
def natDigits? (l : List Char) : Option Nat :=
  if l = [] then none
  else if l.all Char.isDigit then
    some (l.foldl (fun a c => 10 * a + (c.toNat - 48)) 0)
  else none

/-- Python `int(s)`: surrounding whitespace stripped, optional sign,
decimal digits (underscore grouping not modelled); `none` models the
`ValueError` raised on any other input. -/
def pyInt? (s : String) : Option Int :=
  let l := (s.data.dropWhile Char.isWhitespace).reverse.dropWhile Char.isWhitespace |>.reverse
  match l with
  | '+' :: ds => (natDigits? ds).map Int.ofNat
  | '-' :: ds => (natDigits? ds).map (fun n => -(Int.ofNat n))
  | ds => (natDigits? ds).map Int.ofNat

/-! ## MD5 (`hashlib.md5`), used for the 6-hex-char scheduler job key -/

/-- `2 ^ 32`. -/
def M32 : Nat := 4294967296

/-- Addition modulo `2 ^ 32`. -/
def add32 (a b : Nat) : Nat := (a + b) % M32

/-- Bitwise complement of a 32-bit value. -/
def compl32 (x : Nat) : Nat := M32 - 1 - x

/-- Left rotation of a 32-bit value. -/
def rotl32 (x n : Nat) : Nat := ((x <<< n) % M32) + (x >>> (32 - n))

/-- MD5 round function F. -/
def fF (b c d : Nat) : Nat := Nat.lor (Nat.land b c) (Nat.land (compl32 b) d)

/-- MD5 round function G. -/
def fG (b c d : Nat) : Nat := Nat.lor (Nat.land b d) (Nat.land c (compl32 d))

/-- MD5 round function H. -/
def fH (b c d : Nat) : Nat := Nat.xor (Nat.xor b c) d

/-- MD5 round function I. -/
def fI (b c d : Nat) : Nat := Nat.xor c (Nat.lor b (compl32 d))

/-- MD5 sine-derived constant table. -/
def kTable : List Nat := [3614090360, 3905402710, 606105819, 3250441966, 4118548399, 1200080426, 2821735955, 4249261313, 1770035416, 2336552879, 4294925233, 2304563134, 1804603682, 4254626195, 2792965006, 1236535329, 4129170786, 3225465664, 643717713, 3921069994, 3593408605, 38016083, 3634488961, 3889429448, 568446438, 3275163606, 4107603335, 1163531501, 2850285829, 4243563512, 1735328473, 2368359562, 4294588738, 2272392833, 1839030562, 4259657740, 2763975236, 1272893353, 4139469664, 3200236656, 681279174, 3936430074, 3572445317, 76029189, 3654602809, 3873151461, 530742520, 3299628645, 4096336452, 1126891415, 2878612391, 4237533241, 1700485571, 2399980690, 4293915773, 2240044497, 1873313359, 4264355552, 2734768916, 1309151649, 4149444226, 3174756917, 718787259, 3951481745]

/-- MD5 per-round rotation amounts. -/
def sTable : List Nat := [7, 12, 17, 22, 7, 12, 17, 22, 7, 12, 17, 22, 7, 12, 17, 22, 5, 9, 14, 20, 5, 9, 14, 20, 5, 9, 14, 20, 5, 9, 14, 20, 4, 11, 16, 23, 4, 11, 16, 23, 4, 11, 16, 23, 4, 11, 16, 23, 6, 10, 15, 21, 6, 10, 15, 21, 6, 10, 15, 21, 6, 10, 15, 21]

/-- One MD5 operation (round `i`) on the state `(a, b, c, d)` with message
words `m`. -/
def md5Step (m : List Nat) (i : Nat) : Nat × Nat × Nat × Nat → Nat × Nat × Nat × Nat
  | (a, b, c, d) =>
    let fg : Nat × Nat :=
      if i < 16 then (fF b c d, i)
      else if i < 32 then (fG b c d, (5 * i + 1) % 16)
      else if i < 48 then (fH b c d, (3 * i + 5) % 16)
      else (fI b c d, (7 * i) % 16)
    let f := (fg.1 + a + kTable.getD i 0 + m.getD fg.2 0) % M32
    (d, add32 b (rotl32 f (sTable.getD i 0)), b, c)

/-- Iterated MD5 operations, fuelled. -/
def md5Rounds (m : List Nat) : Nat → Nat → Nat × Nat × Nat × Nat → Nat × Nat × Nat × Nat
  | 0, _, st => st
  | fuel + 1, i, st => md5Rounds m fuel (i + 1) (md5Step m i st)

/-- Process one 16-word block. -/
def md5Block (st : Nat × Nat × Nat × Nat) (m : List Nat) : Nat × Nat × Nat × Nat :=
  let r := md5Rounds m 64 0 st
  (add32 st.1 r.1, add32 st.2.1 r.2.1, add32 st.2.2.1 r.2.2.1, add32 st.2.2.2 r.2.2.2)

/-- Little-endian bytes to 32-bit words. -/
def toWords : List Nat → List Nat
  | a :: b :: c :: d :: rest => (a + 256 * b + 65536 * c + 16777216 * d) :: toWords rest
  | _ => []

/-- Split a word list into 16-word blocks, fuelled. -/
def toBlocks : Nat → List Nat → List (List Nat)
  | 0, _ => []
  | _, [] => []
  | fuel + 1, ws => ws.take 16 :: toBlocks fuel (ws.drop 16)

/-- `k` little-endian bytes of `n`. -/
def leBytes : Nat → Nat → List Nat
  | 0, _ => []
  | k + 1, n => (n % 256) :: leBytes k (n / 256)

/-- MD5 padding: a `0x80` byte, zeros to 56 mod 64, then the 64-bit
little-endian bit length. -/
def padMsg (msg : List Nat) : List Nat :=
  msg ++ [128] ++ List.replicate ((56 + 64 - (msg.length + 1) % 64) % 64) 0 ++
    leBytes 8 (msg.length * 8)

/-- The MD5 digest state of a byte string. -/
def md5Digest (msg : List Nat) : Nat × Nat × Nat × Nat :=
  let ws := toWords (padMsg msg)
  let blocks := toBlocks (ws.length / 16 + 1) ws
  blocks.foldl md5Block (1732584193, 4023233417, 2562383102, 271733878)

/-- The lowercase hex digit of a value below 16 (`0`-`9` then `a`-`f`). -/
def hexDigit (n : Nat) : Char := if n < 10 then Char.ofNat (48 + n) else Char.ofNat (87 + n)

/-- Two lowercase hex characters of a byte. -/
def byteHexChars (b : Nat) : List Char := [hexDigit (b / 16 % 16), hexDigit (b % 16)]

/-- Eight hex characters of a 32-bit word, little-endian byte order. -/
def wordHexLE (w : Nat) : List Char :=
  byteHexChars (w % 256) ++ byteHexChars (w / 256 % 256) ++
    byteHexChars (w / 65536 % 256) ++ byteHexChars (w / 16777216 % 256)

/-- The 32 hex characters of the MD5 digest of a byte string. -/
def md5HexChars (msg : List Nat) : List Char :=
  let st := md5Digest msg
  wordHexLE st.1 ++ wordHexLE st.2.1 ++ wordHexLE st.2.2.1 ++ wordHexLE st.2.2.2

/-- `s.encode()` for the ASCII strings in scope. -/
def strBytes (s : String) : List Nat := s.data.map Char.toNat

/-- `hashlib.md5(s.encode()).hexdigest()`. -/
def md5hexdigest (s : String) : String := String.mk (md5HexChars (strBytes s))

/-! ## Configuration constants of `src/b.py` -/

/-- Document extensions (`DOCUMENT_EXTS`). -/
def DOCUMENT_EXTS : List String := [".pdf", ".doc", ".docx", ".xls", ".xlsx", ".ppt", ".pptx", ".txt"]

/-- Image extensions (`IMAGE_EXTS`). -/
def IMAGE_EXTS : List String := [".jpg", ".jpeg", ".png", ".gif", ".webp", ".bmp"]

/-- Audio extensions (`AUDIO_EXTS`). -/
def AUDIO_EXTS : List String := [".mp3", ".wav", ".ogg"]

/-- Video extensions (`VIDEO_EXTS`). -/
def VIDEO_EXTS : List String := [".mp4", ".mov", ".avi", ".mkv"]

/-- `ALLOWED_EXTS = DOCUMENT_EXTS + IMAGE_EXTS + AUDIO_EXTS + VIDEO_EXTS`. -/
def ALLOWED_EXTS : List String := DOCUMENT_EXTS ++ IMAGE_EXTS ++ AUDIO_EXTS ++ VIDEO_EXTS

/-- `MAX_FILE_SIZE = 45 * 1024 * 1024`. -/
def MAX_FILE_SIZE : Nat := 45 * 1024 * 1024

/-! ## `extract_files(html, base_url)`

BeautifulSoup's `find_all(['a', 'img', 'audio', 'video', 'source'])` output
is embedded as a list of tags in document order, each a name with an
attribute dictionary; `urljoin` is an oracle parameter `join`. -/

/-- An HTML element as produced by the parse: tag name plus attributes. -/
structure Tag where
  name : String
  attrs : List (String × String)
deriving DecidableEq

/-- First value bound to a key in an association list. -/
def lookupA {α : Type} (k : String) : List (String × α) → Option α
  | [] => none
  | (k2, v) :: rest => if k = k2 then some v else lookupA k rest

/-- Replace the binding of `k` (or append one): Python `dict` assignment. -/
def updA {α : Type} (k : String) (v : α) : List (String × α) → List (String × α)
  | [] => [(k, v)]
  | (k2, v2) :: rest => if k = k2 then (k, v) :: rest else (k2, v2) :: updA k v rest

/-- Delete the binding of `k`: Python `del`. -/
def delA {α : Type} (k : String) : List (String × α) → List (String × α)
  | [] => []
  | (k2, v2) :: rest => if k = k2 then rest else (k2, v2) :: delA k rest

/-- `tag.get(k)`. -/
def tagGet (t : Tag) (k : String) : Option String := lookupA k t.attrs

/-- The dictionary `{'name': ..., 'url': ..., 'type': ...}` appended to
`files` by `extract_files` (`ftype` embeds the `'type'` key). -/
structure FileEntry where
  name : String
  url : String
  ftype : String
deriving DecidableEq

/-- Python `x or y` where `x` is `tag.get(...)`: `none` and `""` are falsy. -/
def pyOrS : Option String → Option String → Option String
  | some s, y => if s = "" then y else some s
  | none, y => y

/-- Python `x or d` with a string default. -/
def pyOrStr (x : Option String) (d : String) : String :=
  match x with
  | some s => if s = "" then d else s
  | none => d

/-- The tag names scanned by `soup.find_all`. -/
def TAG_NAMES : List String := ["a", "img", "audio", "video", "source"]

/-- `file_type` assignment: the lowered `os.path.splitext(url)[1]` of the
full resolved URL decides image/audio/video, defaulting to `'document'`. -/
def fileTypeOf (url : String) : String :=
  let e := toLowerPy (splitextExt url)
  if e ∈ IMAGE_EXTS then "image"
  else if e ∈ AUDIO_EXTS then "audio"
  else if e ∈ VIDEO_EXTS then "video"
  else "document"

/-- `any(url.lower().endswith(ext) for ext in ALLOWED_EXTS)`. -/
def extAllowed (url : String) : Bool :=
  ALLOWED_EXTS.any (fun e => endsWithPy (toLowerPy url) e)

/-- One iteration of the `extract_files` loop body on a single tag
(`continue` branches return `none`). -/
def extractOne (join : String → String → String) (base : String) (t : Tag) : Option FileEntry :=
  if t.name ∈ TAG_NAMES then
    match pyOrS (tagGet t "href") (tagGet t "src") with
    | none => none
    | some raw =>
      if raw = "" then none
      else
        let u := join base raw
        if extAllowed u then
          some { name := pyOrStr (tagGet t "alt") (pyOrStr (tagGet t "title") (pybasename u)),
                 url := u, ftype := fileTypeOf u }
        else none
  else none

/-- `extract_files(html, base_url)` with `urljoin` as the oracle `join`. -/
def extract_files (join : String → String → String) (html : List Tag) (base_url : String) :
    List FileEntry :=
  html.filterMap (extractOne join base_url)

/-- Modelled from the spec: `urllib.parse.urljoin` is an external library
routine; this model agrees with it on the references the concrete instances
below use — an absolute reference (one containing `"://"`) resolves to
itself, and a relative one is appended to the base's directory. -/
def urljoinModel (base ref : String) : String :=
  if containsSub "://" ref then ref
  else String.mk (base.data.take (base.data.length - (pybasename base).data.length)) ++ ref

/-! ## `download_file(url, custom_name)`

`aiohttp` enters as an oracle: either the session raises (`.error`) or it
yields a response with a status, the two headers the code reads, and the
body bytes. File writes are returned as an explicit operation trace; the
size on disk of a written file is the number of body bytes. -/

/-- The observed HTTP response. -/
structure HttpResp where
  status : Nat
  contentLength : Option String
  contentType : String
  body : List Nat
deriving DecidableEq

/-- The world `download_file` runs against: `session.get` either raises or
returns a response. -/
structure DlEnv where
  resp : Except Unit HttpResp

/-- A filesystem effect of `download_file`. -/
inductive FsOp
  | write (name : String) (size : Nat)
  | remove (name : String)
deriving DecidableEq

/-- `int(response.headers.get('Content-Length', 0))`; `none` models the
`ValueError` on an unparsable header (caught by the enclosing `except`). -/
def clParse (r : HttpResp) : Option Int :=
  match r.contentLength with
  | none => some 0
  | some s => pyInt? s

/-- The extension chosen for the local file: the lowered extension of the
URL's path, else a `Content-Type`-derived default. -/
def dlExt (url : String) (r : HttpResp) : String :=
  let e := toLowerPy (splitextExt (urlparsePath url))
  if e = "" then
    if containsSub "image" r.contentType then ".jpg"
    else if containsSub "audio" r.contentType then ".mp3"
    else if containsSub "video" r.contentType then ".mp4"
    else ".bin"
  else e

/-- The local filename:
`re.sub(r'[\\/*?:"<>|]', '', (custom_name or os.path.basename(urlparse(url).path)) + ext)`. -/
def dlName (url : String) (customName : Option String) (r : HttpResp) : String :=
  let base :=
    match customName with
    | some s => if s = "" then pybasename (urlparsePath url) else s
    | none => pybasename (urlparsePath url)
  stripBad (base ++ dlExt url r)

/-- `download_file(url, custom_name)`: the returned value and the
filesystem operations performed, in order. The enclosing
`try ... except: return None` makes every failure path yield `none`. -/
def downloadFile (env : DlEnv) (url : String) (customName : Option String) :
    Option String × List FsOp :=
  match env.resp with
  | .error _ => (none, [])
  | .ok r =>
    if r.status ≠ 200 then (none, [])
    else
      match clParse r with
      | none => (none, [])
      | some cl =>
        if cl > (MAX_FILE_SIZE : Int) then (none, [])
        else
          let fn := dlName url customName r
          if r.body.length > MAX_FILE_SIZE then
            (none, [FsOp.write fn r.body.length, FsOp.remove fn])
          else (some fn, [FsOp.write fn r.body.length])

/-! ## The tracking store (`user_data`)

`user_data` maps `str(user_id)` to `{'tracked_urls': {url: entry}}`; the
intermediate `'tracked_urls'` dictionary level is always present (created by
`/track`'s `setdefault`), so the store is embedded as a two-level
association list. Subjects are embedded by their decimal string form
throughout (`str(user_id)` and the f-string job prefix coincide on it). -/

/-- One `tracked_urls` entry: `{'hash', 'interval', 'night_mode', 'files'}`. -/
structure Tracked where
  hash : String
  interval : Int
  night_mode : Bool
  files : List String
deriving DecidableEq

/-- The persisted `user_data` mapping. -/
abbrev UserData := List (String × List (String × Tracked))

/-- `user_data[user][url]` as an optional lookup (the code's
`user_str not in user_data or url not in ...['tracked_urls']` guard). -/
def lookup2 (ud : UserData) (user url : String) : Option Tracked :=
  match lookupA user ud with
  | none => none
  | some m => lookupA url m

/-- Store an entry under `(user, url)`, creating the user level if missing
(the `setdefault` chain, or in-place mutation of an existing entry). -/
def upd2 (ud : UserData) (user url : String) (t : Tracked) : UserData :=
  updA user (updA url t (match lookupA user ud with | none => [] | some m => m)) ud

/-! ## One poll cycle: `check_single_website(client, url, user_id)`

The external world of a cycle is an oracle record: the page fetch
(`requests.get` + `raise_for_status`), the SHA-256 hex digest, `urljoin`,
one `DlEnv` per file URL for the inner `download_file` calls, and whether
`send_document` succeeds on a given local file (a `False` embeds the raised
exception, which the cycle's `except` catches). Every externally visible
action of the cycle is recorded in an event trace, in program order. -/

/-- The fetched page: raw bytes (hashed) and the parse of its text. -/
structure Page where
  content : List Nat
  tags : List Tag
deriving DecidableEq

/-- The oracle environment of one poll cycle. -/
structure CycleEnv where
  sha : List Nat → String
  join : String → String → String
  fetch : Except Unit Page
  dlEnv : String → DlEnv
  sendDocOk : String → Bool

/-- An externally visible action of a poll cycle, in program order:
`saved` is the durable `save_json(user_data, USER_DATA_FILE)` flush,
`wrote`/`removedFile` are filesystem effects, `sentDocument` and
`sentMessage` are Telegram deliveries. -/
inductive Event
  | saved (ud : UserData)
  | wrote (name : String) (size : Nat)
  | sentDocument (userId : String) (filename : String) (caption : String)
  | removedFile (name : String)
  | sentMessage (userId : String) (text : String)
deriving DecidableEq

/-- Filesystem operations of `download_file` as trace events. -/
def fsEvents : List FsOp → List Event
  | [] => []
  | FsOp.write n s :: rest => Event.wrote n s :: fsEvents rest
  | FsOp.remove n :: rest => Event.removedFile n :: fsEvents rest

/-- `"\n".join(summary)`. -/
def joinNL : List String → String
  | [] => ""
  | [s] => s
  | s :: rest => s ++ "\n" ++ joinNL rest

/-- The delivery loop of `check_single_website`: for each extracted file
whose URL is not in `previous_files`, download and send it. Returns the
events emitted, the summary lines collected, and whether the loop ran to
completion (`false` embeds a `send_document` exception escaping to the
cycle's `except`). -/
def deliverLoop (env : CycleEnv) (userId : String) (previous : List String) :
    List FileEntry → List Event × List String × Bool
  | [] => ([], [], true)
  | f :: rest =>
    if f.url ∈ previous then deliverLoop env userId previous rest
    else
      match downloadFile (env.dlEnv f.url) f.url (some f.name) with
      | (none, ops) =>
        let r := deliverLoop env userId previous rest
        (fsEvents ops ++ r.1, r.2.1, r.2.2)
      | (some fn, ops) =>
        if fn = "" then
          let r := deliverLoop env userId previous rest
          (fsEvents ops ++ r.1, r.2.1, r.2.2)
        else
          let cap := f.name ++ " (" ++ f.ftype ++ ")"
          if env.sendDocOk fn then
            let r := deliverLoop env userId previous rest
            (fsEvents ops ++ [Event.sentDocument userId fn cap, Event.removedFile fn] ++ r.1,
             cap :: r.2.1, r.2.2)
          else (fsEvents ops, [], false)

/-- `check_single_website(client, url, user_id)` on the store `ud`:
returns the store after the cycle and the event trace. The body's
`try ... except: log` wrapper means every path returns normally; a fetch
failure or a missing/unchanged target returns with no events. On a changed
fingerprint the code stores the new hash and the full list of currently
extracted file URLs and flushes (`saved`) *before* entering the delivery
loop; the aggregate summary message is sent only if the loop completed with
a nonempty summary. -/
def checkSingleWebsite (env : CycleEnv) (url userId : String) (ud : UserData) :
    UserData × List Event :=
  match env.fetch with
  | .error _ => (ud, [])
  | .ok page =>
    let currentHash := env.sha page.content
    match lookup2 ud userId url with
    | none => (ud, [])
    | some tracked =>
      if currentHash = tracked.hash then (ud, [])
      else
        let newFiles := extract_files env.join page.tags url
        let ud2 := upd2 ud userId url
          { tracked with hash := currentHash, files := newFiles.map FileEntry.url }
        let r := deliverLoop env userId tracked.files newFiles
        if r.2.2 && !r.2.1.isEmpty then
          (ud2, Event.saved ud2 :: r.1 ++
            [Event.sentMessage userId ("Website updated: " ++ url ++ "\nNew files:\n" ++ joinNL r.2.1)])
        else (ud2, Event.saved ud2 :: r.1)

/-! ## The scheduler and the `/track` command

APScheduler's job table (backed by the durable `SQLAlchemyJobStore`) is a
map from job id to job definition; `add_job(..., id=job_id,
replace_existing=True)` replaces the binding at an existing id. -/

/-- A scheduled job definition: the callback arguments `(url, chat_id)` and
the trigger (`IntervalTrigger(minutes=interval)`, optionally intersected
with the `CronTrigger(hour='6-22')` night gate). -/
structure Job where
  url : String
  chatId : String
  interval : Int
  night : Bool
deriving DecidableEq

/-- The scheduler's (durably stored) job table. -/
abbrev SchedState := List (String × Job)

/-- The binding keys of an association list. -/
def keysA {α : Type} (l : List (String × α)) : List String := l.map (fun e => e.1)

/-- `hashlib.md5(url.encode()).hexdigest()[:6]`. -/
def jobDigest6 (url : String) : List Char := (md5HexChars (strBytes url)).take 6

/-- The job id `f"{chat_id}_{hashlib.md5(url.encode()).hexdigest()[:6]}"`. -/
def jobId (chatId url : String) : String := chatId ++ "_" ++ String.mk (jobDigest6 url)

/-- `scheduler.add_job(..., id=jid, replace_existing=True)`. -/
def addJob (st : SchedState) (jid : String) (j : Job) : SchedState := updA jid j st

/-- The accepted-`/track` state change: register (or replace) the job under
`jobId chatId url` and store a fresh entry `{'hash': '', 'interval': i,
'night_mode': night, 'files': []}` under `(chatId, url)`. -/
def trackCore (chatId url : String) (i : Int) (night : Bool) (st : SchedState) (ud : UserData) :
    SchedState × UserData :=
  (addJob st (jobId chatId url) { url := url, chatId := chatId, interval := i, night := night },
   upd2 ud chatId url { hash := "", interval := i, night_mode := night, files := [] })

/-- The `/track` handler on the split message words: `args[1]` is the URL,
`int(args[2])` the interval (an unparsable or missing argument raises, is
caught, and leaves both states untouched), and night mode holds when
`'night' in args[3:]`. The `Bool` reports acceptance. -/
def trackCmd (chatId : String) (args : List String) (st : SchedState) (ud : UserData) :
    SchedState × UserData × Bool :=
  match args with
  | _ :: url :: istr :: rest =>
    match pyInt? istr with
    | none => (st, ud, false)
    | some i =>
      let p := trackCore chatId url i (rest.contains "night") st ud
      (p.1, p.2, true)
  | _ => (st, ud, false)

/-- One restart-relevant track request (already past command parsing). -/
structure TrackReq where
  chatId : String
  url : String
  interval : Int
  night : Bool
deriving DecidableEq

/-- Fold one accepted track request into the scheduler and store state. -/
def applyTrack (p : SchedState × UserData) (r : TrackReq) : SchedState × UserData :=
  trackCore r.chatId r.url r.interval r.night p.1 p.2

/-- Modelled from the spec: the process-restart re-hydration of the
scheduler, which lives in APScheduler's `SQLAlchemyJobStore` (configured in
`src/b.py` but implemented outside the repository). The durable job table
survives the restart and is reloaded as stored, re-arming each job with its
persisted trigger. -/
def restartReload (st : SchedState) : SchedState := st

/-- Discriminator for document deliveries in a trace. -/
def isSentDocument : Event → Bool
  | Event.sentDocument _ _ _ => true
  | _ => false

/-- The store entry and trace a changed cycle produces (names the updated
store of `check_single_website`'s changed branch). -/
def chgUd (env : CycleEnv) (url uid : String) (ud : UserData) (page : Page) (tr : Tracked) :
    UserData :=
  upd2 ud uid url
    { tr with hash := env.sha page.content
              files := (extract_files env.join page.tags url).map FileEntry.url }

/-- The event trace of a changed cycle. -/
def chgTrace (env : CycleEnv) (url uid : String) (ud : UserData) (page : Page) (tr : Tracked) :
    List Event :=
  let r := deliverLoop env uid tr.files (extract_files env.join page.tags url)
  if r.2.2 && !r.2.1.isEmpty then
    Event.saved (chgUd env url uid ud page tr) :: r.1 ++
      [Event.sentMessage uid ("Website updated: " ++ url ++ "\nNew files:\n" ++ joinNL r.2.1)]
  else Event.saved (chgUd env url uid ud page tr) :: r.1

set_option maxRecDepth 400000

/-! ## Sanity theorems validating the embedded library helpers -/

/-- MD5 test vector: the RFC 1321 digest of `"abc"`, validating the
embedding of `hashlib.md5`. -/
theorem md5_vector_abc : md5hexdigest "abc" = "900150983cd24fb0d6963f7d28e17f72" := by decide

/-- MD5 test vector: the RFC 1321 digest of the empty string. -/
theorem md5_vector_empty : md5hexdigest "" = "d41d8cd98f00b204e9800998ecf8427e" := by decide

/-- `os.path.splitext` vectors (checked against CPython). -/
theorem splitext_vectors :
    splitextExt "/a/b.c" = ".c" ∧ splitextExt ".c" = "" ∧ splitextExt "a.b.c" = ".c" ∧
    splitextExt "..pdf" = "" ∧ splitextExt "/a/.pdf" = "" ∧ splitextExt "a.b/c" = "" ∧
    splitextExt "http://h/x?f=.pdf" = ".pdf" := by decide

/-- `urlparse(...).path` vectors (checked against CPython). -/
theorem urlparse_vectors :
    urlparsePath "http://h/x.pdf?v=1" = "/x.pdf" ∧ urlparsePath "http://h/x?f=.pdf" = "/x" ∧
    urlparsePath "http://host" = "" ∧ urlparsePath "a?b#c" = "a" ∧ urlparsePath "a#b?c" = "a" := by
  decide

/-! ## Association-list lemmas -/

theorem lookupA_updA_self {α : Type} (k : String) (v : α) (l : List (String × α)) :
    lookupA k (updA k v l) = some v := by
  induction l with
  | nil => simp [updA, lookupA]
  | cons e rest ih =>
    obtain ⟨k2, v2⟩ := e
    by_cases h : k = k2
    · simp [updA, h, lookupA]
    · simp [updA, h, lookupA, ih]

theorem updA_updA_same {α : Type} (k : String) (v1 v2 : α) (l : List (String × α)) :
    updA k v2 (updA k v1 l) = updA k v2 l := by
  induction l with
  | nil => simp [updA]
  | cons e rest ih =>
    obtain ⟨k2, v2'⟩ := e
    by_cases h : k = k2
    · simp [updA, h]
    · simp [updA, h, ih]

theorem mem_keysA_cons {α : Type} (k k2 : String) (v2 : α) (rest : List (String × α)) :
    k ∈ keysA ((k2, v2) :: rest) ↔ k = k2 ∨ k ∈ keysA rest := by
  simp [keysA]

theorem keysA_updA {α : Type} (k : String) (v : α) (l : List (String × α)) :
    keysA (updA k v l) = if k ∈ keysA l then keysA l else keysA l ++ [k] := by
  induction l with
  | nil => simp [updA, keysA]
  | cons e rest ih =>
    obtain ⟨k2, v2⟩ := e
    by_cases h : k = k2
    · simp [updA, h, keysA]
    · have hmem : (k ∈ keysA ((k2, v2) :: rest)) ↔ k ∈ keysA rest :=
        (mem_keysA_cons k k2 v2 rest).trans (or_iff_right h)
      have hu : updA k v ((k2, v2) :: rest) = (k2, v2) :: updA k v rest := by
        simp [updA, h]
      rw [hu]
      by_cases hm : k ∈ keysA rest
      · rw [if_pos (hmem.mpr hm)]
        show k2 :: keysA (updA k v rest) = k2 :: keysA rest
        rw [ih, if_pos hm]
      · rw [if_neg (fun hc => hm (hmem.mp hc))]
        show k2 :: keysA (updA k v rest) = (k2 :: keysA rest) ++ [k]
        rw [ih, if_neg hm]
        rfl

theorem keysA_updA_of_mem {α : Type} (k : String) (v : α) (l : List (String × α))
    (h : k ∈ keysA l) : keysA (updA k v l) = keysA l := by
  simp [keysA_updA, h]

theorem updA_of_not_mem {α : Type} (k : String) (v : α) (l : List (String × α))
    (h : k ∉ keysA l) : updA k v l = l ++ [(k, v)] := by
  induction l with
  | nil => simp [updA]
  | cons e rest ih =>
    obtain ⟨k2, v2⟩ := e
    have h1 : ¬ k = k2 := fun hc => h ((mem_keysA_cons k k2 v2 rest).mpr (Or.inl hc))
    have h2 : k ∉ keysA rest := fun hc => h ((mem_keysA_cons k k2 v2 rest).mpr (Or.inr hc))
    simp [updA, h1, ih h2]

theorem nodup_keysA_updA {α : Type} (k : String) (v : α) (l : List (String × α))
    (h : (keysA l).Nodup) : (keysA (updA k v l)).Nodup := by
  by_cases hm : k ∈ keysA l
  · rwa [keysA_updA_of_mem k v l hm]
  · rw [updA_of_not_mem k v l hm]
    simp [keysA]
    simp [keysA] at h hm
    exact List.Nodup.append h (by simp) (by simpa [List.disjoint_right] using hm)

theorem lookup2_upd2_self (ud : UserData) (user url : String) (t : Tracked) :
    lookup2 (upd2 ud user url t) user url = some t := by
  unfold lookup2 upd2
  rw [lookupA_updA_self]
  exact lookupA_updA_self url t _

/-! ## Poll-cycle lemmas -/

theorem fsEvents_no_saved (ops : List FsOp) (x : UserData) : Event.saved x ∉ fsEvents ops := by
  induction ops with
  | nil => simp [fsEvents]
  | cons o rest ih => cases o <;> simp [fsEvents, ih]

theorem deliverLoop_no_saved (env : CycleEnv) (uid : String) (previous : List String)
    (fs : List FileEntry) (x : UserData) :
    Event.saved x ∉ (deliverLoop env uid previous fs).1 := by
  induction fs with
  | nil => simp [deliverLoop]
  | cons f rest ih =>
    unfold deliverLoop
    by_cases hp : f.url ∈ previous
    · simpa [hp] using ih
    · simp only [hp, if_false]
      rcases hdl : downloadFile (env.dlEnv f.url) f.url (some f.name) with ⟨fn?, ops⟩
      cases fn? with
      | none => simpa using ⟨fsEvents_no_saved ops x, ih⟩
      | some fn =>
        by_cases hfn : fn = ""
        · simpa [hfn] using ⟨fsEvents_no_saved ops x, ih⟩
        · by_cases hs : env.sendDocOk fn
          · simpa [hfn, hs] using ⟨fsEvents_no_saved ops x, ih⟩
          · simpa [hfn, hs] using fsEvents_no_saved ops x

theorem deliverLoop_all_fail (env : CycleEnv) (uid : String) (previous : List String)
    (fs : List FileEntry)
    (h : ∀ f ∈ fs, downloadFile (env.dlEnv f.url) f.url (some f.name) = (none, [])) :
    deliverLoop env uid previous fs = ([], [], true) := by
  induction fs with
  | nil => simp [deliverLoop]
  | cons f rest ih =>
    have hrest := ih (fun g hg => h g (List.mem_cons_of_mem f hg))
    have hf := h f (List.mem_cons_self f rest)
    unfold deliverLoop
    by_cases hp : f.url ∈ previous
    · simpa [hp] using hrest
    · simp [hp, hf, hrest, fsEvents]

/-- The changed-fingerprint branch of `check_single_website`, as one
equation: the new hash and the full extracted URL list are stored and
flushed, and the trace is the flush followed by the delivery loop's
events. -/
theorem checkSingleWebsite_changed (env : CycleEnv) (url uid : String) (ud : UserData)
    (page : Page) (tr : Tracked) (hf : env.fetch = Except.ok page)
    (ht : lookup2 ud uid url = some tr) (hne : env.sha page.content ≠ tr.hash) :
    checkSingleWebsite env url uid ud =
      (chgUd env url uid ud page tr, chgTrace env url uid ud page tr) := by
  unfold checkSingleWebsite chgTrace chgUd
  rw [hf]
  simp only []
  rw [ht]
  simp only [if_neg hne]
  split <;> rfl

theorem checkSingleWebsite_nochange (env : CycleEnv) (url uid : String) (ud : UserData)
    (page : Page) (tr : Tracked) (hf : env.fetch = Except.ok page)
    (ht : lookup2 ud uid url = some tr) (heq : env.sha page.content = tr.hash) :
    checkSingleWebsite env url uid ud = (ud, []) := by
  unfold checkSingleWebsite
  rw [hf]
  simp only []
  rw [ht]
  simp only [if_pos heq]

theorem checkSingleWebsite_fetchError (env : CycleEnv) (url uid : String) (ud : UserData)
    (hf : env.fetch = Except.error ()) :
    checkSingleWebsite env url uid ud = (ud, []) := by
  unfold checkSingleWebsite
  rw [hf]

theorem checkSingleWebsite_untracked (env : CycleEnv) (url uid : String) (ud : UserData)
    (page : Page) (hf : env.fetch = Except.ok page) (ht : lookup2 ud uid url = none) :
    checkSingleWebsite env url uid ud = (ud, []) := by
  unfold checkSingleWebsite
  rw [hf]
  simp only []
  rw [ht]

/-! ## C4 — no-change short-circuit and idempotence -/

/-- C4: if the fetched content's hash equals the stored fingerprint the
cycle is a complete no-op — the store is unchanged and the trace is empty
(so no extraction, download, notification or flush happened) — and
consequently running the cycle a second time against the same environment
(identical content bytes) is always a no-op, whatever the first run did. -/
theorem C4_nochange_noop_and_idempotent (env : CycleEnv) (url uid : String) (ud : UserData) :
    (∀ page tr, env.fetch = Except.ok page → lookup2 ud uid url = some tr →
       env.sha page.content = tr.hash → checkSingleWebsite env url uid ud = (ud, [])) ∧
    checkSingleWebsite env url uid (checkSingleWebsite env url uid ud).1 =
      ((checkSingleWebsite env url uid ud).1, []) := by
  constructor
  · intro page tr hf ht heq
    exact checkSingleWebsite_nochange env url uid ud page tr hf ht heq
  · rcases hfe : env.fetch with u | page
    · cases u
      rw [checkSingleWebsite_fetchError env url uid ud hfe]
      exact checkSingleWebsite_fetchError env url uid ud hfe
    · rcases ht : lookup2 ud uid url with _ | tr
      · rw [checkSingleWebsite_untracked env url uid ud page hfe ht]
        exact checkSingleWebsite_untracked env url uid ud page hfe ht
      · by_cases heq : env.sha page.content = tr.hash
        · rw [checkSingleWebsite_nochange env url uid ud page tr hfe ht heq]
          exact checkSingleWebsite_nochange env url uid ud page tr hfe ht heq
        · rw [checkSingleWebsite_changed env url uid ud page tr hfe ht heq]
          exact checkSingleWebsite_nochange env url uid _ page _ hfe
            (lookup2_upd2_self ud uid url _) rfl

/-- Concrete instance of `C4_nochange_noop_and_idempotent`: a cycle whose
fetched content hashes to the stored fingerprint leaves the store and the
world untouched. -/
theorem C4_witness :
    checkSingleWebsite
      { sha := fun _ => "H", join := urljoinModel,
        fetch := Except.ok { content := [], tags := [] },
        dlEnv := fun _ => { resp := Except.error () }, sendDocOk := fun _ => true }
      "http://w4/" "1"
      [("1", [("http://w4/", { hash := "H", interval := 30, night_mode := false,
                               files := ["http://w4/a.pdf"] })])] =
    ([("1", [("http://w4/", { hash := "H", interval := 30, night_mode := false,
                              files := ["http://w4/a.pdf"] })])], []) :=
  (C4_nochange_noop_and_idempotent _ "http://w4/" "1" _).1
    { content := [], tags := [] }
    { hash := "H", interval := 30, night_mode := false, files := ["http://w4/a.pdf"] }
    rfl (by decide) rfl

/-! ## C8 — fetch failure is a silent no-op; no error is process-fatal -/

/-- C8: a fetch failure (network error, non-success status or timeout all
surface as the embedded `requests` exception) makes the cycle return with
no store mutation and no events; and on every environment whatsoever —
including ones where downloads or the Telegram send raise — the cycle
returns normally, with the store either untouched or holding exactly the
single changed-branch update (no other state is reachable, so no error
escapes the poll routine). -/
theorem C8_fetch_failure_silent (env : CycleEnv) (url uid : String) (ud : UserData) :
    (env.fetch = Except.error () → checkSingleWebsite env url uid ud = (ud, [])) ∧
    ((checkSingleWebsite env url uid ud).1 = ud ∨
      ∃ page tr, env.fetch = Except.ok page ∧ lookup2 ud uid url = some tr ∧
        env.sha page.content ≠ tr.hash ∧
        (checkSingleWebsite env url uid ud).1 = chgUd env url uid ud page tr) := by
  constructor
  · intro hf
    exact checkSingleWebsite_fetchError env url uid ud hf
  · rcases hfe : env.fetch with u | page
    · cases u
      left
      rw [checkSingleWebsite_fetchError env url uid ud hfe]
    · rcases ht : lookup2 ud uid url with _ | tr
      · left
        rw [checkSingleWebsite_untracked env url uid ud page hfe ht]
      · by_cases heq : env.sha page.content = tr.hash
        · left
          rw [checkSingleWebsite_nochange env url uid ud page tr hfe ht heq]
        · right
          exact ⟨page, tr, rfl, rfl, heq,
            by rw [checkSingleWebsite_changed env url uid ud page tr hfe ht heq]⟩

/-- Concrete instance of `C8_fetch_failure_silent`: a raised
`requests.get`/`raise_for_status` leaves the store empty-handed. -/
theorem C8_witness :
    checkSingleWebsite
      { sha := fun _ => "", join := urljoinModel, fetch := Except.error (),
        dlEnv := fun _ => { resp := Except.error () }, sendDocOk := fun _ => true }
      "http://w8/" "2"
      [("2", [("http://w8/", { hash := "X", interval := 5, night_mode := true,
                               files := ["u"] })])] =
    ([("2", [("http://w8/", { hash := "X", interval := 5, night_mode := true,
                              files := ["u"] })])], []) :=
  (C8_fetch_failure_silent _ "http://w8/" "2" _).1 rfl

/-! ## C10 — `download_file` is total and returns `None` on every failure path -/

/-- C10: `download_file` never raises (every path of the embedding returns),
and it returns `None` exactly on the failure paths the code has: a raised
request, a non-200 status, an unparsable `Content-Length` header (the
`int(...)` exception), a `Content-Length` above the 45 MB cap, or a written
file above the cap — in which case the file is written and then deleted
before returning; otherwise it returns the computed filename, having
written the body to it. -/
theorem C10_downloadFile_paths (env : DlEnv) (url : String) (cn : Option String) :
    (env.resp = Except.error () → downloadFile env url cn = (none, [])) ∧
    (∀ r, env.resp = Except.ok r → r.status ≠ 200 → downloadFile env url cn = (none, [])) ∧
    (∀ r, env.resp = Except.ok r → r.status = 200 → clParse r = none →
       downloadFile env url cn = (none, [])) ∧
    (∀ r cl, env.resp = Except.ok r → r.status = 200 → clParse r = some cl →
       cl > (MAX_FILE_SIZE : Int) → downloadFile env url cn = (none, [])) ∧
    (∀ r cl, env.resp = Except.ok r → r.status = 200 → clParse r = some cl →
       cl ≤ (MAX_FILE_SIZE : Int) → r.body.length > MAX_FILE_SIZE →
       downloadFile env url cn =
         (none, [FsOp.write (dlName url cn r) r.body.length,
                 FsOp.remove (dlName url cn r)])) ∧
    (∀ r cl, env.resp = Except.ok r → r.status = 200 → clParse r = some cl →
       cl ≤ (MAX_FILE_SIZE : Int) → r.body.length ≤ MAX_FILE_SIZE →
       downloadFile env url cn = (some (dlName url cn r), [FsOp.write (dlName url cn r) r.body.length])) := by
  refine ⟨?_, ?_, ?_, ?_, ?_, ?_⟩
  · intro hr
    unfold downloadFile
    rw [hr]
  · intro r hr hs
    unfold downloadFile
    rw [hr]
    simp [hs]
  · intro r hr hs hcl
    unfold downloadFile
    rw [hr]
    simp [hs, hcl]
  · intro r cl hr hs hcl hgt
    unfold downloadFile
    rw [hr]
    simp [hs, hcl, hgt]
  · intro r cl hr hs hcl hle hgt
    unfold downloadFile
    rw [hr]
    simp [hs, hcl, not_lt.mpr hle, hgt]
  · intro r cl hr hs hcl hle hble
    unfold downloadFile
    rw [hr]
    simp [hs, hcl, not_lt.mpr hle, not_lt.mpr hble]

/-! ## C1 — ordering of delivery and persistence (refuted: persist comes first) -/

/-- C1 counterexample environment: the page changed and carries one new
document link, but its download fails. -/
def cexC1Env : CycleEnv :=
  { sha := fun _ => "H1"
    join := urljoinModel
    fetch := Except.ok { content := [1], tags := [{ name := "a", attrs := [("href", "http://h/a.pdf")] }] }
    dlEnv := fun _ => { resp := Except.error () }
    sendDocOk := fun _ => true }

/-- C1 counterexample store: target tracked with no files seen yet. -/
def cexC1Ud : UserData :=
  [("7", [("http://site/", { hash := "", interval := 30, night_mode := false, files := [] })])]

/-- The store the C1 counterexample cycle persists. -/
def cexC1Ud2 : UserData :=
  [("7", [("http://site/", { hash := "H1", interval := 30, night_mode := false,
                             files := ["http://h/a.pdf"] })])]

/-- C1 counterexample: in this changed cycle no file is delivered (the
trace holds no `sentDocument` event at all — the single event is the
`save_json` flush), yet the persisted seen-file set is
`["http://h/a.pdf"]`, not the previous set `[]` extended by the delivered
URLs (which would be `[]`). So delivery does not precede persistence and
the persisted set is not `previous ∪ delivered`: the code persists the full
extracted list before attempting any delivery. -/
theorem C1_counterexample :
    checkSingleWebsite cexC1Env "http://site/" "7" cexC1Ud = (cexC1Ud2, [Event.saved cexC1Ud2]) ∧
    (checkSingleWebsite cexC1Env "http://site/" "7" cexC1Ud).2.filter
      (fun e => isSentDocument e) = [] ∧
    (lookup2 cexC1Ud "7" "http://site/").map Tracked.files = some [] ∧
    (lookup2 cexC1Ud2 "7" "http://site/").map Tracked.files = some ["http://h/a.pdf"] ∧
    (["http://h/a.pdf"] : List String) ≠ [] := by decide

/-- C1 (amended): in every changed cycle the updated state — new hash and
the *full* list of currently extracted file URLs, independent of any
delivery outcome — is flushed first: the trace starts with the `saved`
event and no further flush follows (ordering fetch → persist → notify). -/
theorem C1_amended_persist_before_notify (env : CycleEnv) (url uid : String) (ud : UserData)
    (page : Page) (tr : Tracked) (hf : env.fetch = Except.ok page)
    (ht : lookup2 ud uid url = some tr) (hne : env.sha page.content ≠ tr.hash) :
    ∃ rest, checkSingleWebsite env url uid ud =
        (chgUd env url uid ud page tr, Event.saved (chgUd env url uid ud page tr) :: rest) ∧
      (∀ x : UserData, Event.saved x ∉ rest) ∧
      (lookup2 (chgUd env url uid ud page tr) uid url).map Tracked.files =
        some ((extract_files env.join page.tags url).map FileEntry.url) := by
  rw [checkSingleWebsite_changed env url uid ud page tr hf ht hne]
  have hlk : lookup2 (chgUd env url uid ud page tr) uid url =
      some { tr with hash := env.sha page.content
                     files := (extract_files env.join page.tags url).map FileEntry.url } :=
    lookup2_upd2_self ud uid url _
  unfold chgTrace
  by_cases hc : (deliverLoop env uid tr.files (extract_files env.join page.tags url)).2.2 &&
      !(deliverLoop env uid tr.files (extract_files env.join page.tags url)).2.1.isEmpty
  · refine ⟨(deliverLoop env uid tr.files (extract_files env.join page.tags url)).1 ++
      [Event.sentMessage uid ("Website updated: " ++ url ++ "\nNew files:\n" ++
        joinNL (deliverLoop env uid tr.files (extract_files env.join page.tags url)).2.1)],
      ?_, ?_, ?_⟩
    · rw [if_pos hc]
      rfl
    · intro x hx
      rcases List.mem_append.mp hx with h1 | h2
      · exact deliverLoop_no_saved env uid tr.files _ x h1
      · simp at h2
    · rw [hlk]
      rfl
  · refine ⟨(deliverLoop env uid tr.files (extract_files env.join page.tags url)).1, ?_, ?_, ?_⟩
    · rw [if_neg hc]
    · intro x hx
      exact deliverLoop_no_saved env uid tr.files _ x hx
    · rw [hlk]
      rfl

/-- Concrete data for the `C1_amended_persist_before_notify` witness. -/
def w1Page : Page :=
  { content := [9], tags := [{ name := "a", attrs := [("href", "http://h/w1.pdf")] }] }

/-- C1 witness environment. -/
def w1Env : CycleEnv :=
  { sha := fun _ => "W1", join := urljoinModel, fetch := Except.ok w1Page,
    dlEnv := fun _ => { resp := Except.error () }, sendDocOk := fun _ => true }

/-- C1 witness target entry. -/
def w1Tr : Tracked := { hash := "", interval := 10, night_mode := false, files := [] }

/-- C1 witness store. -/
def w1Ud : UserData := [("3", [("http://w1/", w1Tr)])]

/-- Concrete instance of `C1_amended_persist_before_notify`. -/
theorem C1_witness :
    ∃ rest, checkSingleWebsite w1Env "http://w1/" "3" w1Ud =
        (chgUd w1Env "http://w1/" "3" w1Ud w1Page w1Tr,
         Event.saved (chgUd w1Env "http://w1/" "3" w1Ud w1Page w1Tr) :: rest) ∧
      (∀ x : UserData, Event.saved x ∉ rest) ∧
      (lookup2 (chgUd w1Env "http://w1/" "3" w1Ud w1Page w1Tr) "3" "http://w1/").map
          Tracked.files =
        some ((extract_files w1Env.join w1Page.tags "http://w1/").map FileEntry.url) :=
  C1_amended_persist_before_notify w1Env "http://w1/" "3" w1Ud w1Page w1Tr rfl (by decide)
    (by decide)

/-! ## C2 — monotonicity of the seen-file set (refuted: the set is replaced) -/

/-- C2 counterexample environment: the page changed and now carries only a
new link, no longer the previously seen one. -/
def cexC2Env : CycleEnv :=
  { sha := fun _ => "H2"
    join := urljoinModel
    fetch := Except.ok { content := [2], tags := [{ name := "a", attrs := [("href", "http://h/b.pdf")] }] }
    dlEnv := fun _ => { resp := Except.error () }
    sendDocOk := fun _ => true }

/-- C2 counterexample store: one URL already seen. -/
def cexC2Ud : UserData :=
  [("7", [("http://site/", { hash := "H1", interval := 30, night_mode := false,
                             files := ["http://old/x.pdf"] })])]

/-- C2 counterexample: the previously seen URL `http://old/x.pdf` is in the
stored file set before the cycle and gone after it — the set shrank without
any `untrack`, because the changed branch replaces `tracked['files']`
wholesale with the currently extracted URLs. -/
theorem C2_counterexample :
    (lookup2 cexC2Ud "7" "http://site/").map Tracked.files = some ["http://old/x.pdf"] ∧
    (lookup2 (checkSingleWebsite cexC2Env "http://site/" "7" cexC2Ud).1 "7" "http://site/").map
      Tracked.files = some ["http://h/b.pdf"] ∧
    "http://old/x.pdf" ∉ (["http://h/b.pdf"] : List String) := by decide

/-- C2 (amended): after a changed cycle the stored file list is exactly the
list of currently extracted URLs; any previously seen URL that is no longer
extracted from the new page is dropped from the store (the set is replaced,
not grown — it shrinks whenever the page stops listing an old file). -/
theorem C2_amended_files_not_monotone (env : CycleEnv) (url uid : String) (ud : UserData)
    (page : Page) (tr : Tracked) (hf : env.fetch = Except.ok page)
    (ht : lookup2 ud uid url = some tr) (hne : env.sha page.content ≠ tr.hash) :
    (lookup2 (checkSingleWebsite env url uid ud).1 uid url).map Tracked.files =
      some ((extract_files env.join page.tags url).map FileEntry.url) ∧
    (∀ u ∈ tr.files, u ∉ (extract_files env.join page.tags url).map FileEntry.url →
      ∀ t, lookup2 (checkSingleWebsite env url uid ud).1 uid url = some t → u ∉ t.files) := by
  rw [checkSingleWebsite_changed env url uid ud page tr hf ht hne]
  have hlk : lookup2 (chgUd env url uid ud page tr) uid url =
      some { tr with hash := env.sha page.content
                     files := (extract_files env.join page.tags url).map FileEntry.url } :=
    lookup2_upd2_self ud uid url _
  constructor
  · rw [hlk]
    rfl
  · intro u _ hnot t hlt
    rw [hlk] at hlt
    cases hlt
    exact hnot

/-- C2 witness data: a page that dropped the previously seen URL. -/
def w2Page : Page :=
  { content := [8], tags := [{ name := "a", attrs := [("href", "http://h/w2.pdf")] }] }

/-- C2 witness environment. -/
def w2Env : CycleEnv :=
  { sha := fun _ => "W2", join := urljoinModel, fetch := Except.ok w2Page,
    dlEnv := fun _ => { resp := Except.error () }, sendDocOk := fun _ => true }

/-- C2 witness target entry. -/
def w2Tr : Tracked := { hash := "OLD", interval := 15, night_mode := true, files := ["http://gone/y.pdf"] }

/-- C2 witness store. -/
def w2Ud : UserData := [("4", [("http://w2/", w2Tr)])]

/-- Concrete instance of `C2_amended_files_not_monotone`. -/
theorem C2_witness :
    (lookup2 (checkSingleWebsite w2Env "http://w2/" "4" w2Ud).1 "4" "http://w2/").map
        Tracked.files =
      some ((extract_files w2Env.join w2Page.tags "http://w2/").map FileEntry.url) ∧
    (∀ u ∈ w2Tr.files, u ∉ (extract_files w2Env.join w2Page.tags "http://w2/").map FileEntry.url →
      ∀ t, lookup2 (checkSingleWebsite w2Env "http://w2/" "4" w2Ud).1 "4" "http://w2/" = some t →
        u ∉ t.files) :=
  C2_amended_files_not_monotone w2Env "http://w2/" "4" w2Ud w2Page w2Tr rfl (by decide) (by decide)

/-! ## C3 — oversize/failed files (refuted: their URLs are still persisted) -/

/-- C3 counterexample environment: the one extracted file announces a
`Content-Length` of 47185921 bytes, one over the 45 MB cap, so
`download_file` returns `None`. -/
def cexC3Env : CycleEnv :=
  { sha := fun _ => "H3"
    join := urljoinModel
    fetch := Except.ok { content := [3], tags := [{ name := "a", attrs := [("href", "http://h/d3.pdf")] }] }
    dlEnv := fun _ => { resp := Except.ok { status := 200, contentLength := some "47185921",
                                            contentType := "", body := [] } }
    sendDocOk := fun _ => true }

/-- C3 counterexample store. -/
def cexC3Ud : UserData :=
  [("9", [("http://site3/", { hash := "", interval := 30, night_mode := false, files := [] })])]

/-- The store the C3 counterexample cycle persists. -/
def cexC3Ud2 : UserData :=
  [("9", [("http://site3/", { hash := "H3", interval := 30, night_mode := false,
                              files := ["http://h/d3.pdf"] })])]

/-- C3 counterexample: the oversize file `http://h/d3.pdf` is not delivered
(the trace is just the flush, no `sentDocument`) and the fingerprint does
update to `"H3"` — but contrary to the claim its URL *is* folded into the
persisted file set, so it will be treated as already seen by the next
changed cycle rather than staying eligible for delivery. -/
theorem C3_counterexample :
    checkSingleWebsite cexC3Env "http://site3/" "9" cexC3Ud = (cexC3Ud2, [Event.saved cexC3Ud2]) ∧
    (lookup2 cexC3Ud2 "9" "http://site3/") =
      some { hash := "H3", interval := 30, night_mode := false, files := ["http://h/d3.pdf"] } ∧
    "http://h/d3.pdf" ∈ (["http://h/d3.pdf"] : List String) := by decide

/-- C3 (amended): in a changed cycle in which every extracted file's
download fails (oversize or otherwise), nothing is delivered — the trace is
exactly the flush event — and the fingerprint is updated to the new page
hash, but the failed files' URLs are all persisted in the stored file list
(they are *not* left eligible as "new" for a future cycle). -/
theorem C3_amended_skipped_files_marked_seen (env : CycleEnv) (url uid : String) (ud : UserData)
    (page : Page) (tr : Tracked) (hf : env.fetch = Except.ok page)
    (ht : lookup2 ud uid url = some tr) (hne : env.sha page.content ≠ tr.hash)
    (hall : ∀ f ∈ extract_files env.join page.tags url,
      downloadFile (env.dlEnv f.url) f.url (some f.name) = (none, [])) :
    checkSingleWebsite env url uid ud =
      (chgUd env url uid ud page tr, [Event.saved (chgUd env url uid ud page tr)]) ∧
    (lookup2 (chgUd env url uid ud page tr) uid url).map Tracked.hash =
      some (env.sha page.content) ∧
    (lookup2 (chgUd env url uid ud page tr) uid url).map Tracked.files =
      some ((extract_files env.join page.tags url).map FileEntry.url) := by
  have hlk : lookup2 (chgUd env url uid ud page tr) uid url =
      some { tr with hash := env.sha page.content
                     files := (extract_files env.join page.tags url).map FileEntry.url } :=
    lookup2_upd2_self ud uid url _
  refine ⟨?_, by rw [hlk]; rfl, by rw [hlk]; rfl⟩
  rw [checkSingleWebsite_changed env url uid ud page tr hf ht hne]
  unfold chgTrace
  rw [deliverLoop_all_fail env uid tr.files _ hall]
  rfl

/-- C3 witness data: one oversize file (by `Content-Length`). -/
def w3Page : Page :=
  { content := [7], tags := [{ name := "a", attrs := [("href", "http://h/w3big.pdf")] }] }

/-- C3 witness environment. -/
def w3Env : CycleEnv :=
  { sha := fun _ => "W3", join := urljoinModel, fetch := Except.ok w3Page,
    dlEnv := fun _ => { resp := Except.ok { status := 200, contentLength := some "99999999",
                                            contentType := "", body := [] } },
    sendDocOk := fun _ => true }

/-- C3 witness target entry. -/
def w3Tr : Tracked := { hash := "", interval := 20, night_mode := false, files := [] }

/-- C3 witness store. -/
def w3Ud : UserData := [("5", [("http://w3/", w3Tr)])]

/-- Concrete instance of `C3_amended_skipped_files_marked_seen`. -/
theorem C3_witness :
    checkSingleWebsite w3Env "http://w3/" "5" w3Ud =
      (chgUd w3Env "http://w3/" "5" w3Ud w3Page w3Tr,
       [Event.saved (chgUd w3Env "http://w3/" "5" w3Ud w3Page w3Tr)]) ∧
    (lookup2 (chgUd w3Env "http://w3/" "5" w3Ud w3Page w3Tr) "5" "http://w3/").map Tracked.hash =
      some (w3Env.sha w3Page.content) ∧
    (lookup2 (chgUd w3Env "http://w3/" "5" w3Ud w3Page w3Tr) "5" "http://w3/").map Tracked.files =
      some ((extract_files w3Env.join w3Page.tags "http://w3/").map FileEntry.url) :=
  C3_amended_skipped_files_marked_seen w3Env "http://w3/" "5" w3Ud w3Page w3Tr rfl (by decide)
    (by decide) (by decide)

/-! ## C5 — extraction filter and naming (refuted: they use the full URL, not its path) -/

/-- C5 counterexample: the anchor `<a href="http://h/x?f=.pdf">` is kept by
`extract_files` — the full URL, lowercased, ends with `".pdf"` — yet the
URL's *path* is `/x`, whose extension is `""`, which is not in the
allow-list; and the derived display name is `x?f=.pdf`, not the URL's last
path segment `x`. The filter and the name fallback operate on the full
resolved URL (query string included), not on its path. -/
theorem C5_counterexample :
    extract_files urljoinModel [{ name := "a", attrs := [("href", "http://h/x?f=.pdf")] }]
      "http://h/" =
      [{ name := "x?f=.pdf", url := "http://h/x?f=.pdf", ftype := "document" }] ∧
    toLowerPy (splitextExt (urlparsePath "http://h/x?f=.pdf")) = "" ∧
    "" ∉ ALLOWED_EXTS ∧
    pybasename (urlparsePath "http://h/x?f=.pdf") = "x" ∧
    "x?f=.pdf" ≠ "x" := by decide

/-- Every computed file type is one of the four media classes. -/
theorem fileTypeOf_mem (u : String) :
    fileTypeOf u ∈ ["document", "image", "audio", "video"] := by
  by_cases h1 : toLowerPy (splitextExt u) ∈ IMAGE_EXTS
  · simp [fileTypeOf, h1]
  by_cases h2 : toLowerPy (splitextExt u) ∈ AUDIO_EXTS
  · simp [fileTypeOf, h1, h2]
  by_cases h3 : toLowerPy (splitextExt u) ∈ VIDEO_EXTS
  · simp [fileTypeOf, h1, h2, h3]
  · simp [fileTypeOf, h1, h2, h3]

/-- C5 (amended): every extracted file comes from an `a`/`img`/`audio`/
`video`/`source` tag whose `href`-else-`src` is nonempty; its URL is the
reference resolved against the base; the *full resolved URL*, lowercased,
ends with an allowed extension (not: its path extension lies in the list);
its name is the nonempty `alt`, else the nonempty `title`, else the
substring of the full URL after the last slash; and its type is the
image/audio/video/document class of the full URL's `splitext` extension. -/
theorem C5_amended_extraction_shape (join : String → String → String)
    (html : List Tag) (base : String) (f : FileEntry)
    (hf : f ∈ extract_files join html base) :
    (∃ t ∈ html, t.name ∈ TAG_NAMES ∧
       ∃ raw, pyOrS (tagGet t "href") (tagGet t "src") = some raw ∧ raw ≠ "" ∧
         f.url = join base raw ∧
         f.name = pyOrStr (tagGet t "alt") (pyOrStr (tagGet t "title") (pybasename f.url))) ∧
    extAllowed f.url = true ∧
    f.ftype = fileTypeOf f.url ∧
    f.ftype ∈ ["document", "image", "audio", "video"] := by
  rcases List.mem_filterMap.mp hf with ⟨t, htm, hext⟩
  by_cases htn : t.name ∈ TAG_NAMES
  case neg =>
    unfold extractOne at hext
    rw [if_neg htn] at hext
    cases hext
  unfold extractOne at hext
  rw [if_pos htn] at hext
  rcases hraw : pyOrS (tagGet t "href") (tagGet t "src") with _ | raw
  · rw [hraw] at hext
    simp at hext
  · rw [hraw] at hext
    dsimp only at hext
    by_cases hre : raw = ""
    · rw [if_pos hre] at hext
      cases hext
    rw [if_neg hre] at hext
    by_cases hal : extAllowed (join base raw)
    · rw [if_pos hal] at hext
      injection hext with hx
      subst hx
      exact ⟨⟨t, htm, htn, raw, hraw, hre, rfl, rfl⟩, hal, rfl, fileTypeOf_mem _⟩
    · rw [if_neg hal] at hext
      cases hext

/-- The tag list witnessing `C5_amended_extraction_shape`. -/
def w5Tags : List Tag :=
  [{ name := "audio", attrs := [("src", "http://h/w5.mp3"), ("title", "song")] }]

/-- Concrete instance of `C5_amended_extraction_shape` on an `audio` tag
with a `src` reference and a `title` name. -/
theorem C5_witness :
    (∃ t ∈ w5Tags, t.name ∈ TAG_NAMES ∧
       ∃ raw, pyOrS (tagGet t "href") (tagGet t "src") = some raw ∧ raw ≠ "" ∧
         "http://h/w5.mp3" = urljoinModel "http://h/" raw ∧
         "song" = pyOrStr (tagGet t "alt") (pyOrStr (tagGet t "title")
           (pybasename "http://h/w5.mp3"))) ∧
    extAllowed "http://h/w5.mp3" = true ∧
    "audio" = fileTypeOf "http://h/w5.mp3" ∧
    "audio" ∈ (["document", "image", "audio", "video"] : List String) :=
  C5_amended_extraction_shape urljoinModel w5Tags "http://h/"
    { name := "song", url := "http://h/w5.mp3", ftype := "audio" } (by decide)

/-! ## C6 — interval validation (refuted: none exists) -/

/-- C6 counterexample: a `/track` request with interval `0` is accepted: a
job with interval `0` is registered under the computed job id and the
stored entry records interval `0`, which is below every positive minimum
bound. (`CHECK_INTERVAL = 30` exists in the source but is never consulted;
negative intervals are accepted the same way.) -/
theorem C6_counterexample :
    trackCmd "1" ["/track", "http://e.com/", "0"] [] [] =
      ([(jobId "1" "http://e.com/",
         { url := "http://e.com/", chatId := "1", interval := 0, night := false })],
       [("1", [("http://e.com/",
                { hash := "", interval := 0, night_mode := false, files := [] })])],
       true) ∧
    ¬ (1 ≤ (0 : Int)) := by decide

/-- C6 (amended): the stored interval and the registered job's interval are
exactly the integer parsed from the request, for *every* integer — zero and
negative values included; no positivity check or minimum bound exists. -/
theorem C6_amended_interval_unvalidated (c url : String) (i : Int) (night : Bool)
    (st : SchedState) (ud : UserData) :
    lookup2 (trackCore c url i night st ud).2 c url =
      some { hash := "", interval := i, night_mode := night, files := [] } ∧
    lookupA (jobId c url) (trackCore c url i night st ud).1 =
      some { url := url, chatId := c, interval := i, night := night } :=
  ⟨lookup2_upd2_self ud c url _, lookupA_updA_self _ _ st⟩

/-! ## C7 — one live job per tracked target (refuted: 6-hex-char MD5 keys collide) -/

/-- C7 counterexample: `http://example.com/page3771` and
`http://example.com/page6626` are distinct URLs whose MD5 hex digests share
the first six characters (`5aab2c`), so they map to the *same* job id for
the same subject. Tracking both leaves two stored targets but a single live
job — and that job's callback arguments name only the second URL, so the
first target has no job at all. -/
theorem C7_counterexample :
    jobId "1" "http://example.com/page3771" = jobId "1" "http://example.com/page6626" ∧
    "http://example.com/page3771" ≠ "http://example.com/page6626" ∧
    (let p1 := trackCore "1" "http://example.com/page3771" 5 false [] []
     let p2 := trackCore "1" "http://example.com/page6626" 7 false p1.1 p1.2
     p2.1 = [("1_5aab2c",
              { url := "http://example.com/page6626", chatId := "1", interval := 7,
                night := false })] ∧
     p2.2 = [("1", [("http://example.com/page3771",
                     { hash := "", interval := 5, night_mode := false, files := [] }),
                    ("http://example.com/page6626",
                     { hash := "", interval := 7, night_mode := false, files := [] })])]) := by
  decide

/-- C7 (amended): the job id is a deterministic function of the subject and
the first six MD5 hex characters of the URL; re-tracking the same
(subject, URL) replaces both the job and the stored target rather than
duplicating them, and the job table keeps at most one live job per *job
id* — but distinct URLs may collide on an id, in which case the later
registration silently replaces the earlier target's job. -/
theorem C7_amended_replace_by_job_key (c url : String) (i1 i2 : Int) (n1 n2 : Bool)
    (st : SchedState) (ud : UserData) (h : (keysA st).Nodup) :
    keysA (trackCore c url i2 n2 (trackCore c url i1 n1 st ud).1
        (trackCore c url i1 n1 st ud).2).1 =
      keysA (trackCore c url i1 n1 st ud).1 ∧
    (keysA (trackCore c url i1 n1 st ud).1).Nodup ∧
    lookupA (jobId c url)
        (trackCore c url i2 n2 (trackCore c url i1 n1 st ud).1
          (trackCore c url i1 n1 st ud).2).1 =
      some { url := url, chatId := c, interval := i2, night := n2 } ∧
    lookup2 (trackCore c url i2 n2 (trackCore c url i1 n1 st ud).1
        (trackCore c url i1 n1 st ud).2).2 c url =
      some { hash := "", interval := i2, night_mode := n2, files := [] } := by
  refine ⟨?_, nodup_keysA_updA _ _ st h, lookupA_updA_self _ _ _, lookup2_upd2_self _ _ _ _⟩
  show keysA (updA (jobId c url) _ (updA (jobId c url) _ st)) = keysA (updA (jobId c url) _ st)
  rw [updA_updA_same, keysA_updA, keysA_updA]

/-- Concrete instance of `C7_amended_replace_by_job_key`: re-tracking the
same URL for the same subject replaces the job and the stored entry. -/
theorem C7_witness :
    keysA (trackCore "9" "http://w7/" 4 true (trackCore "9" "http://w7/" 3 false [] []).1
        (trackCore "9" "http://w7/" 3 false [] []).2).1 =
      keysA (trackCore "9" "http://w7/" 3 false ([] : SchedState) ([] : UserData)).1 ∧
    (keysA (trackCore "9" "http://w7/" 3 false ([] : SchedState) ([] : UserData)).1).Nodup ∧
    lookupA (jobId "9" "http://w7/")
        (trackCore "9" "http://w7/" 4 true (trackCore "9" "http://w7/" 3 false [] []).1
          (trackCore "9" "http://w7/" 3 false [] []).2).1 =
      some { url := "http://w7/", chatId := "9", interval := 4, night := true } ∧
    lookup2 (trackCore "9" "http://w7/" 4 true (trackCore "9" "http://w7/" 3 false [] []).1
        (trackCore "9" "http://w7/" 3 false [] []).2).2 "9" "http://w7/" =
      some { hash := "", interval := 4, night_mode := true, files := [] } :=
  C7_amended_replace_by_job_key "9" "http://w7/" 3 4 false true [] [] (by decide)

/-! ## C9 — restart recovery (refuted for colliding keys; holds for distinct keys) -/

/-- The job a track request registers. -/
def jobOf (r : TrackReq) : Job :=
  { url := r.url, chatId := r.chatId, interval := r.interval, night := r.night }

/-- The job id a track request registers under. -/
def reqKey (r : TrackReq) : String := jobId r.chatId r.url

/-- Folding track requests whose job keys are fresh and pairwise distinct
appends one job per request to the durable job table. -/
theorem foldl_applyTrack_jobs (reqs : List TrackReq) :
    ∀ (st : SchedState) (ud : UserData),
      (∀ r ∈ reqs, reqKey r ∉ keysA st) →
      (reqs.map reqKey).Nodup →
      (reqs.foldl applyTrack (st, ud)).1 = st ++ reqs.map (fun r => (reqKey r, jobOf r)) := by
  induction reqs with
  | nil =>
    intro st ud _ _
    simp
  | cons r rest ih =>
    intro st ud hdisj hnd
    have hfresh : reqKey r ∉ keysA st := hdisj r (List.mem_cons_self r rest)
    have hkeys : keysA (updA (reqKey r) (jobOf r) st) = keysA st ++ [reqKey r] := by
      rw [keysA_updA, if_neg hfresh]
    have hdisj2 : ∀ r2 ∈ rest, reqKey r2 ∉ keysA (updA (reqKey r) (jobOf r) st) := by
      intro r2 hr2 hmem
      rw [hkeys] at hmem
      rcases List.mem_append.mp hmem with hA | hB
      · exact hdisj r2 (List.mem_cons_of_mem r hr2) hA
      · simp at hB
        exact (List.nodup_cons.mp hnd).1 (hB ▸ List.mem_map_of_mem reqKey hr2)
    have hnd2 := (List.nodup_cons.mp hnd).2
    show (rest.foldl applyTrack (applyTrack (st, ud) r)).1 = _
    have happ : applyTrack (st, ud) r =
        (updA (reqKey r) (jobOf r) st,
         upd2 ud r.chatId r.url
           { hash := "", interval := r.interval, night_mode := r.night, files := [] }) := rfl
    rw [happ, ih _ _ hdisj2 hnd2, updA_of_not_mem _ _ st hfresh]
    simp

/-- In the appended job table, each request's key finds its own job
(pairwise distinct keys). -/
theorem lookupA_reqs_map (reqs : List TrackReq) (hnd : (reqs.map reqKey).Nodup)
    (r : TrackReq) (hr : r ∈ reqs) :
    lookupA (reqKey r) (reqs.map (fun r2 => (reqKey r2, jobOf r2))) = some (jobOf r) := by
  induction reqs with
  | nil => cases hr
  | cons a rest ih =>
    rcases List.mem_cons.mp hr with h | h
    · subst h
      simp [lookupA]
    · by_cases hk : reqKey r = reqKey a
      · exact absurd (hk ▸ List.mem_map_of_mem reqKey h) (List.nodup_cons.mp hnd).1
      · simp only [List.map_cons, lookupA, if_neg hk]
        exact ih (List.nodup_cons.mp hnd).2 h

/-- C9 counterexample: registering the two colliding targets of
`C7_counterexample` under subject `"2"` and restarting yields a single
re-armed job for the two registered targets — not one per target, and the
replaced target's original interval is gone. -/
theorem C9_counterexample :
    (let reqsC : List TrackReq :=
      [{ chatId := "2", url := "http://example.com/page3771", interval := 30, night := false },
       { chatId := "2", url := "http://example.com/page6626", interval := 60, night := true }]
     (restartReload (reqsC.foldl applyTrack ([], [])).1).length = 1 ∧
     reqsC.length = 2 ∧
     (lookupA "2" (reqsC.foldl applyTrack ([], [])).2).map List.length = some 2) := by decide

/-- C9 (amended): when the registered targets' job keys are pairwise
distinct, restarting from the durable job table re-arms exactly one job per
registered target, each with its original interval and night-mode flag,
with no re-issued track request. -/
theorem C9_amended_restart_recovery (reqs : List TrackReq) (ud0 : UserData)
    (hnd : (reqs.map reqKey).Nodup) :
    restartReload (reqs.foldl applyTrack ([], ud0)).1 = (reqs.foldl applyTrack ([], ud0)).1 ∧
    (restartReload (reqs.foldl applyTrack ([], ud0)).1).length = reqs.length ∧
    ∀ r ∈ reqs, lookupA (reqKey r) (restartReload (reqs.foldl applyTrack ([], ud0)).1) =
      some (jobOf r) := by
  have hfold : (reqs.foldl applyTrack ([], ud0)).1 =
      reqs.map (fun r2 => (reqKey r2, jobOf r2)) := by
    have := foldl_applyTrack_jobs reqs [] ud0 (fun r _ h => by simp [keysA] at h) hnd
    simpa using this
  refine ⟨rfl, ?_, ?_⟩
  · show (reqs.foldl applyTrack ([], ud0)).1.length = reqs.length
    rw [hfold]
    simp
  · intro r hr
    show lookupA (reqKey r) (reqs.foldl applyTrack ([], ud0)).1 = some (jobOf r)
    rw [hfold]
    exact lookupA_reqs_map reqs hnd r hr

/-- The distinct-key request list witnessing `C9_amended_restart_recovery`. -/
def w9Reqs : List TrackReq :=
  [{ chatId := "1", url := "http://a.com/", interval := 5, night := false },
   { chatId := "1", url := "http://b.com/", interval := 10, night := true }]

/-- Concrete instance of `C9_amended_restart_recovery`: two targets with
distinct job keys are both re-armed after the restart with their original
settings. -/
theorem C9_witness :
    restartReload (w9Reqs.foldl applyTrack ([], [])).1 = (w9Reqs.foldl applyTrack ([], [])).1 ∧
    (restartReload (w9Reqs.foldl applyTrack ([], [])).1).length = w9Reqs.length ∧
    ∀ r ∈ w9Reqs, lookupA (reqKey r) (restartReload (w9Reqs.foldl applyTrack ([], [])).1) =
      some (jobOf r) :=
  C9_amended_restart_recovery w9Reqs [] (by decide)

/-- The 45 MB+1 oversize response used to witness `C10_downloadFile_paths`. -/
def w10r : HttpResp :=
  { status := 200, contentLength := none, contentType := "",
    body := List.replicate 47185921 0 }

/-- Concrete instance of `C10_downloadFile_paths`: a body one byte over the
cap is written, measured, deleted, and `None` is returned. -/
theorem C10_witness :
    downloadFile { resp := Except.ok w10r } "http://h/big.pdf" (some "Big") =
      (none, [FsOp.write (dlName "http://h/big.pdf" (some "Big") w10r) w10r.body.length,
              FsOp.remove (dlName "http://h/big.pdf" (some "Big") w10r)]) :=
  (C10_downloadFile_paths { resp := Except.ok w10r } "http://h/big.pdf" (some "Big")).2.2.2.2.1
    w10r 0 rfl rfl rfl (by decide)
    (by show (List.replicate 47185921 (0 : Nat)).length > MAX_FILE_SIZE
        rw [List.length_replicate]
        decide)

end Tr7
